import Mathlib

/-!
Verification development for the FFX NOVA resume/job matching core.

The Python sources under `src/` are shallowly embedded as executable Lean
definitions: strings stay `String`, Python `float` scores become `ℚ`
(the scoring arithmetic in scope is exact decimal arithmetic), Python
`int` becomes `ℤ`/`ℕ`, Python `None` becomes `Option`, and the external
embedding service plus the per-extractor bodies that are out of scope are
passed in as explicit function parameters, mirroring the orchestration
code that calls them.
-/

set_option maxRecDepth 20000

namespace FFX

/-! ## Python string primitives

Executable models of the CPython `str` operations used by the matcher
(`str.lower`, `str.strip`) restricted to the ASCII range the skill and
clearance vocabulary lives in. -/

/-- ASCII `str.lower`: maps `A..Z` to `a..z`, leaves everything else. -/
def pyLowerChar (c : Char) : Char :=
  if 'A' ≤ c ∧ c ≤ 'Z' then Char.ofNat (c.toNat + 32) else c

/-- `str.lower` over a whole string. -/
def pyLower (s : String) : String :=
  String.mk (s.data.map pyLowerChar)

/-- Python whitespace class (`str.strip` default / regex `\s`, ASCII). -/
def isPySpace (c : Char) : Bool :=
  c == ' ' || c == '\t' || c == '\n' || c == '\r' || c == '\x0b' || c == '\x0c'

/-- `str.strip()`: drop leading and trailing whitespace. -/
def pyStripList (l : List Char) : List Char :=
  ((l.dropWhile isPySpace).reverse.dropWhile isPySpace).reverse

/-- `str.strip()` on strings. -/
def pyStrip (s : String) : String :=
  String.mk (pyStripList s.data)

/-! ## `src/job_matcher/utils/skill_synonyms.py`

`SKILL_SYNONYMS` maps each canonical skill to its alternative surface
forms; the insertion order of the Python dict literal is kept because the
derived reverse lookup is built by iterating it in that order (later
bindings overwrite earlier ones). -/

/-- The `SKILL_SYNONYMS` dict literal, in source order. -/
def SKILL_SYNONYMS : List (String × List String) := [
  ("javascript", ["js", "ecmascript", "es6", "es2015", "es2020", "vanilla js"]),
  ("typescript", ["ts"]),
  ("python", ["python3", "python2", "py", "cpython"]),
  ("java", ["java8", "java11", "java17", "jdk", "j2ee", "jee"]),
  ("c#", ["csharp", "c sharp", ".net c#"]),
  ("c++", ["cpp", "c plus plus", "cplusplus"]),
  ("c", ["ansi c", "c language"]),
  ("go", ["golang"]),
  ("rust", ["rustlang"]),
  ("ruby", ["ruby on rails", "ror"]),
  ("php", ["php7", "php8"]),
  ("swift", ["swift ui", "swiftui"]),
  ("kotlin", ["kotlin/jvm"]),
  ("scala", ["scala lang"]),
  ("r", ["r language", "r programming", "rstats"]),
  ("matlab", ["mathlab"]),
  ("perl", ["perl5"]),
  ("shell", ["bash", "sh", "zsh", "shell scripting", "bash scripting"]),
  ("powershell", ["ps", "posh", "windows powershell"]),
  ("sql", ["structured query language", "sql queries"]),
  ("react", ["reactjs", "react.js", "react js"]),
  ("angular", ["angularjs", "angular.js", "angular 2+", "ng"]),
  ("vue", ["vuejs", "vue.js", "vue3"]),
  ("svelte", ["sveltejs", "svelte.js"]),
  ("next.js", ["nextjs", "next"]),
  ("nuxt", ["nuxtjs", "nuxt.js"]),
  ("jquery", ["jquery.js"]),
  ("bootstrap", ["twitter bootstrap", "bootstrap css"]),
  ("tailwind", ["tailwindcss", "tailwind css"]),
  ("node.js", ["nodejs", "node", "express.js", "expressjs"]),
  ("django", ["django python", "django rest framework", "drf"]),
  ("flask", ["flask python"]),
  ("fastapi", ["fast api", "fastapi python"]),
  ("spring", ["spring boot", "spring framework", "springboot"]),
  ("rails", ["ruby on rails", "ror"]),
  ("laravel", ["laravel php"]),
  ("asp.net", ["aspnet", "asp net", ".net core", "dotnet"]),
  ("postgresql", ["postgres", "psql", "pg"]),
  ("mysql", ["mariadb", "maria db"]),
  ("mongodb", ["mongo", "mongo db"]),
  ("redis", ["redis cache"]),
  ("elasticsearch", ["elastic", "es", "elk"]),
  ("dynamodb", ["dynamo db", "aws dynamodb"]),
  ("cassandra", ["apache cassandra"]),
  ("sqlite", ["sqlite3"]),
  ("oracle", ["oracle db", "oracle database", "plsql", "pl/sql"]),
  ("sql server", ["mssql", "microsoft sql server", "ms sql"]),
  ("aws", ["amazon web services", "amazon aws"]),
  ("azure", ["microsoft azure", "azure cloud"]),
  ("gcp", ["google cloud", "google cloud platform"]),
  ("heroku", ["heroku cloud"]),
  ("digitalocean", ["digital ocean"]),
  ("cloudflare", ["cloudflare workers"]),
  ("docker", ["containerization", "docker compose", "docker-compose"]),
  ("kubernetes", ["k8s", "kube", "k8", "kubectl"]),
  ("terraform", ["terraform iac", "tf"]),
  ("ansible", ["ansible automation"]),
  ("jenkins", ["jenkins ci", "jenkins pipeline"]),
  ("gitlab ci", ["gitlab-ci", "gitlab ci/cd"]),
  ("github actions", ["gh actions", "github workflows"]),
  ("circleci", ["circle ci"]),
  ("nginx", ["nginx server"]),
  ("apache", ["apache http", "httpd"]),
  ("linux", ["unix", "linux administration", "rhel", "centos", "ubuntu"]),
  ("machine learning", ["ml", "statistical learning"]),
  ("deep learning", ["dl", "neural networks", "nn"]),
  ("tensorflow", ["tf", "tensorflow 2"]),
  ("pytorch", ["torch"]),
  ("scikit-learn", ["sklearn", "scikit learn"]),
  ("pandas", ["pandas python"]),
  ("numpy", ["np", "numpy python"]),
  ("spark", ["apache spark", "pyspark"]),
  ("hadoop", ["apache hadoop", "hdfs"]),
  ("kafka", ["apache kafka"]),
  ("rest", ["restful", "rest api", "restful api"]),
  ("graphql", ["graph ql", "gql"]),
  ("grpc", ["g rpc"]),
  ("soap", ["soap api"]),
  ("websocket", ["websockets", "ws"]),
  ("jest", ["jestjs"]),
  ("pytest", ["py.test", "python testing"]),
  ("junit", ["junit5"]),
  ("selenium", ["selenium webdriver"]),
  ("cypress", ["cypress.io"]),
  ("mocha", ["mochajs"]),
  ("git", ["github", "gitlab", "bitbucket", "version control"]),
  ("svn", ["subversion"]),
  ("agile", ["scrum", "kanban", "agile methodology"]),
  ("jira", ["atlassian jira"]),
  ("confluence", ["atlassian confluence"]),
  ("cybersecurity", ["cyber security", "infosec", "information security"]),
  ("penetration testing", ["pen testing", "pentest", "ethical hacking"]),
  ("oauth", ["oauth2", "oauth 2.0"]),
  ("jwt", ["json web token", "json web tokens"]),
  ("microservices", ["micro services", "microservice architecture"]),
  ("ci/cd", ["cicd", "ci cd", "continuous integration", "continuous deployment"]),
  ("api", ["apis", "api development"])]

/-- The insertion sequence of `_REVERSE_LOOKUP`: for each dict entry the
canonical key is inserted first, then each synonym, all lower-cased and
mapped to the canonical form. -/
def revPairs : List (String × String) :=
  (SKILL_SYNONYMS.map fun p =>
    (pyLower p.1, p.1) :: p.2.map fun syn => (pyLower syn, p.1)).flatten

/-- `_REVERSE_LOOKUP[k]` with Python dict semantics: the last insertion
for a key wins. -/
def revLookup (k : String) : Option String :=
  revPairs.reverse.lookup k

/-- `normalize_skill` (`skill_synonyms.py:146`): empty strings pass
through, otherwise lower-case + strip and resolve through the reverse
synonym lookup, falling back to the lowered form itself. -/
def normalize_skill (skill : String) : String :=
  if skill = "" then ""
  else
    let skill_lower := pyStrip (pyLower skill)
    match revLookup skill_lower with
    | some canonical => canonical
    | none => skill_lower

/-- Every binding the reverse lookup can return is a canonical form that
is non-empty, already lower-case and stripped, and resolves to itself. -/
def revSelfOK : Bool :=
  revPairs.all fun p =>
    (p.2 != "") && (pyStrip (pyLower p.2) == p.2) && (revLookup p.2 == some p.2)

theorem revSelfOK_true : revSelfOK = true := by decide

/-! ### Facts about the string primitives -/

theorem char_toLower_toNat_of_upper {c : Char} (h1 : 65 ≤ c.toNat) (h2 : c.toNat ≤ 90) :
    (Char.toLower c).toNat = c.toNat + 32 := by
  unfold Char.toLower
  dsimp only
  rw [if_pos ⟨h1, h2⟩]
  have h3 : 97 ≤ c.toNat + 32 := by omega
  have h4 : c.toNat + 32 ≤ 122 := by omega
  generalize c.toNat + 32 = m at h3 h4 ⊢
  interval_cases m <;> decide

theorem char_toLower_of_not_upper {c : Char} (h : ¬(65 ≤ c.toNat ∧ c.toNat ≤ 90)) :
    Char.toLower c = c := by
  unfold Char.toLower
  dsimp only
  exact if_neg h

theorem char_toLower_idem (c : Char) : Char.toLower (Char.toLower c) = Char.toLower c := by
  by_cases h : 65 ≤ c.toNat ∧ c.toNat ≤ 90
  · have hd := char_toLower_toNat_of_upper h.1 h.2
    exact char_toLower_of_not_upper (by omega)
  · have h2 := char_toLower_of_not_upper h
    rw [h2, h2]

theorem isPySpace_false_of_ge {c : Char} (h : 65 ≤ c.toNat) : isPySpace c = false := by
  have hne : ∀ d : Char, d.toNat < 65 → (c == d) = false := by
    intro d hd
    exact beq_eq_false_iff_ne.mpr (fun e => by rw [e] at h; omega)
  unfold isPySpace
  rw [hne ' ' (by decide), hne '\t' (by decide), hne '\n' (by decide), hne '\r' (by decide),
    hne '\x0b' (by decide), hne '\x0c' (by decide)]
  rfl

theorem isPySpace_toLower (c : Char) : isPySpace (Char.toLower c) = isPySpace c := by
  by_cases h : 65 ≤ c.toNat ∧ c.toNat ≤ 90
  · have hd := char_toLower_toNat_of_upper h.1 h.2
    rw [isPySpace_false_of_ge (by omega), isPySpace_false_of_ge (c := c) (by omega)]
  · rw [char_toLower_of_not_upper h]

theorem head?_dropWhile_false {p : Char → Bool} :
    ∀ {l : List Char} {x : Char}, (l.dropWhile p).head? = some x → p x = false := by
  intro l
  induction l with
  | nil => intro x h; simp [List.dropWhile] at h
  | cons a as ih =>
    intro x h
    by_cases hpa : p a = true
    · rw [List.dropWhile_cons, if_pos hpa] at h
      exact ih h
    · rw [List.dropWhile_cons, if_neg hpa] at h
      cases h
      exact Bool.eq_false_iff.mpr hpa

theorem dropWhile_eq_self_of_head? {p : Char → Bool} {l : List Char}
    (h : ∀ x, l.head? = some x → p x = false) : l.dropWhile p = l := by
  cases l with
  | nil => rfl
  | cons a as =>
    rw [List.dropWhile_cons, if_neg]
    rw [h a rfl]
    simp

theorem dropWhile_rdropWhile_dropWhile (p : Char → Bool) (l : List Char) :
    (List.rdropWhile p (l.dropWhile p)).dropWhile p = List.rdropWhile p (l.dropWhile p) := by
  apply dropWhile_eq_self_of_head?
  intro x hx
  rcases List.rdropWhile_prefix p (l.dropWhile p) with ⟨t, ht⟩
  have hne : List.rdropWhile p (l.dropWhile p) ≠ [] := by
    intro e; rw [e] at hx; simp at hx
  have : (l.dropWhile p).head? = some x := by
    rw [← ht, List.head?_append_of_ne_nil _ hne]; exact hx
  exact head?_dropWhile_false this

theorem pyStripList_eq_rdropWhile (l : List Char) :
    pyStripList l = List.rdropWhile isPySpace (l.dropWhile isPySpace) := rfl

theorem pyStripList_idem (l : List Char) : pyStripList (pyStripList l) = pyStripList l := by
  rw [pyStripList_eq_rdropWhile, pyStripList_eq_rdropWhile,
    dropWhile_rdropWhile_dropWhile, List.rdropWhile_idempotent]

theorem pyStripList_map_toLower (l : List Char) :
    pyStripList (l.map Char.toLower) = (pyStripList l).map Char.toLower := by
  have hcomp : (isPySpace ∘ Char.toLower) = isPySpace := funext isPySpace_toLower
  unfold pyStripList
  rw [List.dropWhile_map, hcomp, ← List.map_reverse, List.dropWhile_map, hcomp,
    ← List.map_reverse]

theorem map_toLower_idem (l : List Char) :
    (l.map Char.toLower).map Char.toLower = l.map Char.toLower := by
  rw [List.map_map]
  exact List.map_congr_left fun a _ => char_toLower_idem a

/-- The lower-then-strip pass of `normalize_skill` is idempotent. -/
theorem pyStrip_pyLower_idem (s : String) :
    pyStrip (pyLower (pyStrip (pyLower s))) = pyStrip (pyLower s) := by
  unfold pyStrip pyLower
  have h1 : pyLowerChar = Char.toLower := rfl
  simp only [h1]
  have h2 : pyStripList ((pyStripList (s.data.map Char.toLower)).map Char.toLower)
      = pyStripList (pyStripList (s.data.map Char.toLower)) := by
    rw [← pyStripList_map_toLower, map_toLower_idem]
  exact congrArg String.mk (h2.trans (pyStripList_idem _))

theorem lookup_mem {l : List (String × String)} {k v : String}
    (h : l.lookup k = some v) : (k, v) ∈ l := by
  induction l with
  | nil => simp [List.lookup] at h
  | cons p t ih =>
    rcases p with ⟨a, b⟩
    rw [List.lookup] at h
    rcases hab : (k == a) with _ | _
    · rw [hab] at h
      exact List.mem_cons_of_mem _ (ih h)
    · rw [hab] at h
      cases h
      have : k = a := beq_iff_eq.mp hab
      subst this
      exact List.mem_cons_self _ _

/-- Unpacked form of the `revSelfOK` dictionary check. -/
theorem revLookup_canonical {k v : String} (h : revLookup k = some v) :
    v ≠ "" ∧ pyStrip (pyLower v) = v ∧ revLookup v = some v := by
  have hmem : (k, v) ∈ revPairs := List.mem_reverse.mp (lookup_mem h)
  have hall := List.all_eq_true.mp revSelfOK_true _ hmem
  simpa [and_assoc] using hall

/-- C1, part 1: `normalize_skill` is idempotent on every string. -/
theorem normalize_skill_idem (x : String) :
    normalize_skill (normalize_skill x) = normalize_skill x := by
  have hdef : ∀ s : String, normalize_skill s =
      if s = "" then ""
      else
        match revLookup (pyStrip (pyLower s)) with
        | some canonical => canonical
        | none => pyStrip (pyLower s) := fun _ => rfl
  by_cases hx : x = ""
  · rw [hx]
    rfl
  · rw [hdef x, if_neg hx]
    rcases hl : revLookup (pyStrip (pyLower x)) with _ | c
    · simp only [hl]
      by_cases hsl : pyStrip (pyLower x) = ""
      · rw [hsl]
        rfl
      · rw [hdef _, if_neg hsl, pyStrip_pyLower_idem, hl]
    · -- known synonym: resolves to a canonical form that is a fixpoint
      simp only [hl]
      rcases revLookup_canonical hl with ⟨hc1, hc2, hc3⟩
      rw [hdef c, if_neg hc1, hc2, hc3]

/-- C1: `normalize_skill` is idempotent, and the Kubernetes surface forms
`K8s`, `kubernetes` and `kube` all normalize to the canonical
`kubernetes`. -/
theorem claim_C1 :
    (∀ x : String, normalize_skill (normalize_skill x) = normalize_skill x) ∧
    normalize_skill ("K8s") = "kubernetes" ∧
    normalize_skill ("kubernetes") = "kubernetes" ∧
    normalize_skill ("kube") = "kubernetes" := by
  refine ⟨normalize_skill_idem, by decide, by decide, by decide⟩

/-! ## `src/job_matcher/utils/clearance.py`

The clearance detector works by Python `re.search` over a fixed pattern
table.  The pattern constructs actually used (`\b`, literals, an
optional slash-or-dash class, `\s+`, `(?:ith)?`, negative lookbehind and
negative lookahead) are embedded as a small
explicit matcher with standard regex semantics: `mrun` decides whether a
pattern can match starting at a given offset, and `reSearch` is
`re.search`'s "match anywhere" boolean. -/

/-- Single-character regex atoms: a literal, a character class, `\s`. -/
inductive CharPat
  | lit (c : Char)
  | cls (cs : List Char)
  | ws
deriving DecidableEq

/-- Word-class test for `\b` (ASCII `\w`). -/
def isWordChar (c : Char) : Bool :=
  c.isAlpha || c.isDigit || c == '_'

def charPatMatches : CharPat → Char → Bool
  | .lit c, d => d == c
  | .cls cs, d => cs.contains d
  | .ws, d => isPySpace d

/-- Regex elements used by the clearance and experience patterns. -/
inductive RElem
  | ch (p : CharPat)
  | chOpt (p : CharPat)
  | wsPlus
  | wsStar
  | optStr (cs : List Char)
  | altStrs (ts : List (List Char))
  | optWsStr (cs : List Char)
  | wordB
  | negAhead1 (p : CharPat)
  | negAheadWsStr (cs : List Char)
  | negBehind (ps : List CharPat)
deriving DecidableEq

def testAt (p : CharPat) (s : List Char) (i : ℕ) : Bool :=
  match s[i]? with
  | some c => charPatMatches p c
  | none => false

def wordAt (s : List Char) (i : ℕ) : Bool :=
  match s[i]? with
  | some c => isWordChar c
  | none => false

/-- `\b`: the word-ness of the two sides of position `i` differs. -/
def isBoundary (s : List Char) (i : ℕ) : Bool :=
  (if i = 0 then false else wordAt s (i - 1)) != wordAt s i

/-- Does the literal string `cs` occur at offset `i`? -/
def strAt (cs : List Char) (s : List Char) (i : ℕ) : Bool :=
  (s.drop i).take cs.length == cs

/-- Length of the whitespace run starting at offset `i`. -/
def wsRunLen (s : List Char) (i : ℕ) : ℕ :=
  ((s.drop i).takeWhile isPySpace).length

/-- Fixed-width negative-lookbehind body: the characters just before `i`
match the single-char patterns `ps`. -/
def behindMatches (ps : List CharPat) (s : List Char) (i : ℕ) : Bool :=
  decide (ps.length ≤ i) &&
    (let seg := (s.drop (i - ps.length)).take ps.length
     decide (seg.length = ps.length) &&
       (ps.zip seg).all fun pc => charPatMatches pc.1 pc.2)

/-- Can the element sequence match starting at offset `i`?  Union over
all backtracking choices, which for a boolean `re.search` agrees with
Python's leftmost/greedy strategy. -/
def mrun : List RElem → List Char → ℕ → Bool
  | [], _, _ => true
  | .ch p :: rs, s, i => testAt p s i && mrun rs s (i + 1)
  | .chOpt p :: rs, s, i => (testAt p s i && mrun rs s (i + 1)) || mrun rs s i
  | .wsPlus :: rs, s, i =>
      (List.range (wsRunLen s i)).any fun k => mrun rs s (i + k + 1)
  | .wsStar :: rs, s, i =>
      (List.range (wsRunLen s i + 1)).any fun k => mrun rs s (i + k)
  | .optStr cs :: rs, s, i => (strAt cs s i && mrun rs s (i + cs.length)) || mrun rs s i
  | .altStrs ts :: rs, s, i =>
      ts.any fun t => strAt t s i && mrun rs s (i + t.length)
  | .optWsStr cs :: rs, s, i =>
      ((List.range (wsRunLen s i)).any fun k =>
        strAt cs s (i + k + 1) && mrun rs s (i + k + 1 + cs.length)) || mrun rs s i
  | .wordB :: rs, s, i => isBoundary s i && mrun rs s i
  | .negAhead1 p :: rs, s, i => !testAt p s i && mrun rs s i
  | .negAheadWsStr cs :: rs, s, i =>
      !((List.range (wsRunLen s i)).any fun k => strAt cs s (i + k + 1)) && mrun rs s i
  | .negBehind ps :: rs, s, i => !behindMatches ps s i && mrun rs s i

/-- `re.search(pattern, s) is not None`. -/
def reSearch (r : List RElem) (s : List Char) : Bool :=
  (List.range (s.length + 1)).any fun i => mrun r s i

/-- Literal regex text. -/
def lits (t : String) : List RElem :=
  t.data.map fun c => RElem.ch (CharPat.lit c)

/-- `ClearanceLevel` (`clearance.py:13`), an `IntEnum` ordered by value. -/
inductive ClearanceLevel
  | NONE
  | PUBLIC_TRUST
  | SECRET
  | TOP_SECRET
  | TS_SCI
deriving DecidableEq, Repr

def ClearanceLevel.toNat : ClearanceLevel → ℕ
  | .NONE => 0
  | .PUBLIC_TRUST => 1
  | .SECRET => 2
  | .TOP_SECRET => 3
  | .TS_SCI => 4

/-- `CLEARANCE_PATTERNS` (`clearance.py:29`): per-level regex lists; the
dict has no entry for `NONE` (the loop never asks for it, `.get`
defaults to `[]`). -/
def CLEARANCE_PATTERNS : ClearanceLevel → List (List RElem)
  | .TS_SCI => [
      [.wordB] ++ lits ("ts") ++ [.chOpt (.cls ['/', '-'])] ++ lits ("sci") ++ [.wordB],
      [.wordB] ++ lits ("top") ++ [.wsPlus] ++ lits ("secret") ++
        [.chOpt (.cls ['/', '-'])] ++ lits ("sci") ++ [.wordB],
      [.wordB] ++ lits ("ts") ++ [.wsPlus] ++ lits ("w") ++ [.optStr ("ith".data)] ++
        [.wsPlus] ++ lits ("sci") ++ [.wordB],
      [.wordB] ++ lits ("sci") ++ [.wsPlus] ++ lits ("clearance") ++ [.wordB],
      [.wordB] ++ lits ("sci") ++ [.wsPlus] ++ lits ("eligible") ++ [.wordB]]
  | .TOP_SECRET => [
      [.wordB] ++ lits ("top") ++ [.wsPlus] ++ lits ("secret") ++ [.wordB],
      [.wordB] ++ lits ("ts") ++ [.wsPlus] ++ lits ("clearance") ++ [.wordB],
      [.wordB] ++ lits ("ts") ++ [.wsPlus] ++ lits ("eligible") ++ [.wordB],
      [.negBehind [.cls ['/', '-']], .wordB] ++ lits ("ts") ++
        [.wordB, .negAhead1 (.cls ['/', '-'])]]
  | .SECRET => [
      [.wordB] ++ lits ("secret") ++ [.wsPlus] ++ lits ("clearance") ++ [.wordB],
      [.wordB] ++ lits ("secret") ++ [.wsPlus] ++ lits ("eligible") ++ [.wordB],
      [.wordB] ++ lits ("active") ++ [.wsPlus] ++ lits ("secret") ++ [.wordB],
      [.wordB] ++ lits ("current") ++ [.wsPlus] ++ lits ("secret") ++ [.wordB],
      [.negBehind [.lit 't', .lit 'o', .lit 'p', .ws], .wordB] ++ lits ("secret") ++
        [.wordB, .negAheadWsStr ("service".data)]]
  | .PUBLIC_TRUST => [
      [.wordB] ++ lits ("public") ++ [.wsPlus] ++ lits ("trust") ++ [.wordB],
      [.wordB] ++ lits ("moderate") ++ [.wsPlus] ++ lits ("risk") ++ [.wordB],
      [.wordB] ++ lits ("high") ++ [.wsPlus] ++ lits ("risk") ++ [.wsPlus] ++
        lits ("public") ++ [.wsPlus] ++ lits ("trust") ++ [.wordB],
      [.wordB] ++ lits ("mbi") ++ [.wordB]]
  | .NONE => []

/-- Some pattern of the given level matches the (already lowered) text. -/
def levelMatches (lvl : ClearanceLevel) (s : List Char) : Bool :=
  (CLEARANCE_PATTERNS lvl).any fun r => reSearch r s

/-- `detect_clearance_from_text` (`clearance.py:74`): levels probed from
highest to lowest, first hit wins, `NONE` if nothing matches. -/
def detect_clearance_from_text (text : String) : ClearanceLevel :=
  if text = "" then .NONE
  else
    let text_lower := (pyLower text).data
    if levelMatches .TS_SCI text_lower then .TS_SCI
    else if levelMatches .TOP_SECRET text_lower then .TOP_SECRET
    else if levelMatches .SECRET text_lower then .SECRET
    else if levelMatches .PUBLIC_TRUST text_lower then .PUBLIC_TRUST
    else .NONE

/-- `meets_clearance_requirement` (`clearance.py:112`): ordinal `≥`. -/
def meets_clearance_requirement (resume_clearance job_clearance : ClearanceLevel) : Bool :=
  decide (job_clearance.toNat ≤ resume_clearance.toNat)

/-- `clearance_to_string` (`clearance.py:138`). -/
def clearance_to_string : ClearanceLevel → String
  | .NONE => "None Required"
  | .PUBLIC_TRUST => "Public Trust"
  | .SECRET => "Secret"
  | .TOP_SECRET => "Top Secret"
  | .TS_SCI => "TS/SCI"

/-- C6: `detect_clearance_from_text` classifies at the highest level
whose pattern list matches the case-folded text, trying TS_SCI, then
TOP_SECRET, SECRET, PUBLIC_TRUST, independent of where in the document
the mentions occur; no match at any level yields NONE.  Concretely, a
text mentioning "Secret" before "TS/SCI" is still classified TS_SCI. -/
theorem claim_C6 :
    (∀ text : String,
      (detect_clearance_from_text text = .TS_SCI ↔
        levelMatches .TS_SCI (pyLower text).data = true) ∧
      (detect_clearance_from_text text = .TOP_SECRET ↔
        levelMatches .TS_SCI (pyLower text).data = false ∧
        levelMatches .TOP_SECRET (pyLower text).data = true) ∧
      (detect_clearance_from_text text = .SECRET ↔
        levelMatches .TS_SCI (pyLower text).data = false ∧
        levelMatches .TOP_SECRET (pyLower text).data = false ∧
        levelMatches .SECRET (pyLower text).data = true) ∧
      (detect_clearance_from_text text = .PUBLIC_TRUST ↔
        levelMatches .TS_SCI (pyLower text).data = false ∧
        levelMatches .TOP_SECRET (pyLower text).data = false ∧
        levelMatches .SECRET (pyLower text).data = false ∧
        levelMatches .PUBLIC_TRUST (pyLower text).data = true) ∧
      (detect_clearance_from_text text = .NONE ↔
        levelMatches .TS_SCI (pyLower text).data = false ∧
        levelMatches .TOP_SECRET (pyLower text).data = false ∧
        levelMatches .SECRET (pyLower text).data = false ∧
        levelMatches .PUBLIC_TRUST (pyLower text).data = false)) ∧
    detect_clearance_from_text ("Active Secret clearance; also TS/SCI eligible.") = .TS_SCI := by
  constructor
  · intro text
    by_cases hx : text = ""
    · subst hx
      exact ⟨by decide, by decide, by decide, by decide, by decide⟩
    · simp only [detect_clearance_from_text, if_neg hx]
      cases hb1 : levelMatches .TS_SCI (pyLower text).data with
      | true => simp [hb1]
      | false =>
        cases hb2 : levelMatches .TOP_SECRET (pyLower text).data with
        | true => simp [hb1, hb2]
        | false =>
          cases hb3 : levelMatches .SECRET (pyLower text).data with
          | true => simp [hb1, hb2, hb3]
          | false =>
            cases hb4 : levelMatches .PUBLIC_TRUST (pyLower text).data with
            | true => simp [hb1, hb2, hb3, hb4]
            | false => simp [hb1, hb2, hb3, hb4]
  · decide

/-! ## `src/job_matcher/scoring/experience_scorer.py`

`datetime` values are embedded as year/month/day triples; `datetime.now()`
is passed in explicitly as a `now` parameter.  `_parse_date` is the
CPython `strptime` behaviour of the seven formats the source tries, plus
the year-regex fallback. -/

/-- The `datetime` fields the scorer reads. -/
structure PyDate where
  year : ℕ
  month : ℕ
  day : ℕ
deriving DecidableEq, Repr

def daysInMonth (y m : ℕ) : ℕ :=
  if m = 2 then (if y % 4 = 0 ∧ (y % 100 ≠ 0 ∨ y % 400 = 0) then 29 else 28)
  else if m = 4 ∨ m = 6 ∨ m = 9 ∨ m = 11 then 30
  else 31

/-- `datetime(year, month, day)` construction including its validation;
`none` models the `ValueError` that `strptime` raises for e.g. Feb 30. -/
def mkDate (y m d : ℕ) : Option PyDate :=
  if 1 ≤ y ∧ y ≤ 9999 ∧ 1 ≤ m ∧ m ≤ 12 ∧ 1 ≤ d ∧ d ≤ daysInMonth y m then
    some ⟨y, m, d⟩
  else none

def digitVal (c : Char) : ℕ := c.toNat - 48

/-- `strptime` `%Y`: exactly four digits. -/
def year4 (l : List Char) : Option (ℕ × List Char) :=
  match l with
  | a :: b :: c :: d :: rest =>
    if a.isDigit ∧ b.isDigit ∧ c.isDigit ∧ d.isDigit then
      some (digitVal a * 1000 + digitVal b * 100 + digitVal c * 10 + digitVal d, rest)
    else none
  | _ => none

/-- `strptime` `%m` alternatives in regex order: two digits 10-12 and
01-09, then a bare 1-9. -/
def monthAlts (l : List Char) : List (ℕ × List Char) :=
  (match l with
   | '1' :: c :: rest => if '0' ≤ c && c ≤ '2' then [(10 + digitVal c, rest)] else []
   | '0' :: c :: rest => if '1' ≤ c && c ≤ '9' then [(digitVal c, rest)] else []
   | _ => []) ++
  (match l with
   | c :: rest => if '1' ≤ c && c ≤ '9' then [(digitVal c, rest)] else []
   | [] => [])

/-- `strptime` `%d` alternatives in regex order: 30-31, 10-29, 01-09,
then a bare 1-9. -/
def dayAlts (l : List Char) : List (ℕ × List Char) :=
  (match l with
   | '3' :: c :: rest => if c == '0' || c == '1' then [(30 + digitVal c, rest)] else []
   | _ => []) ++
  (match l with
   | c1 :: c2 :: rest =>
     if ('1' ≤ c1 && c1 ≤ '2') && c2.isDigit then
       [(digitVal c1 * 10 + digitVal c2, rest)]
     else []
   | _ => []) ++
  (match l with
   | '0' :: c :: rest => if '1' ≤ c && c ≤ '9' then [(digitVal c, rest)] else []
   | _ => []) ++
  (match l with
   | c :: rest => if '1' ≤ c && c ≤ '9' then [(digitVal c, rest)] else []
   | [] => [])

def litChar (c : Char) (l : List Char) : Option (List Char) :=
  match l with
  | d :: rest => if d == c then some rest else none
  | [] => none

/-- Format `%Y-%m-%d` over the whole (lowered) string. -/
def fmtYmd (l : List Char) : Option PyDate :=
  match year4 l with
  | none => none
  | some (y, r1) =>
    match litChar '-' r1 with
    | none => none
    | some r2 =>
      (monthAlts r2).findSome? fun mr =>
        match litChar '-' mr.2 with
        | none => none
        | some r3 =>
          (dayAlts r3).findSome? fun dr =>
            if dr.2 = [] then mkDate y mr.1 dr.1 else none

/-- Format `%Y-%m`. -/
def fmtYm (l : List Char) : Option PyDate :=
  match year4 l with
  | none => none
  | some (y, r1) =>
    match litChar '-' r1 with
    | none => none
    | some r2 =>
      (monthAlts r2).findSome? fun mr =>
        if mr.2 = [] then mkDate y mr.1 1 else none

/-- Format `%Y`. -/
def fmtY (l : List Char) : Option PyDate :=
  match year4 l with
  | some (y, r1) => if r1 = [] then mkDate y 1 1 else none
  | none => none

/-- Formats `%m/%Y` and `%m-%Y` (the separator is passed in). -/
def fmtMSepY (sep : Char) (l : List Char) : Option PyDate :=
  (monthAlts l).findSome? fun mr =>
    match litChar sep mr.2 with
    | none => none
    | some r2 =>
      match year4 r2 with
      | some (y, r3) => if r3 = [] then mkDate y mr.1 1 else none
      | none => none

def fullMonthNames : List (String × ℕ) := [
  ("january", 1), ("february", 2), ("march", 3), ("april", 4), ("may", 5),
  ("june", 6), ("july", 7), ("august", 8), ("september", 9), ("october", 10),
  ("november", 11), ("december", 12)]

def abbrMonthNames : List (String × ℕ) := [
  ("jan", 1), ("feb", 2), ("mar", 3), ("apr", 4), ("may", 5), ("jun", 6),
  ("jul", 7), ("aug", 8), ("sep", 9), ("oct", 10), ("nov", 11), ("dec", 12)]

/-- Formats `%B %Y` / `%b %Y`: a month name, then (per `strptime`'s
treatment of literal whitespace) one or more spaces, then `%Y`. -/
def fmtNameY (names : List (String × ℕ)) (l : List Char) : Option PyDate :=
  names.findSome? fun nm =>
    let cs := nm.1.data
    if (l.take cs.length == cs : Bool) then
      let r1 := l.drop cs.length
      match r1 with
      | c :: _ =>
        if isPySpace c then
          match year4 (r1.dropWhile isPySpace) with
          | some (y, r3) => if r3 = [] then mkDate y nm.2 1 else none
          | none => none
        else none
      | [] => none
    else none

/-- The fallback `re.search(r"\b(19|20)\d{2}\b", s)`: leftmost
four-digit year starting 19 or 20 on word boundaries. -/
def findYear (l : List Char) : Option ℕ :=
  (List.range l.length).findSome? fun i =>
    match l[i]?, l[i+1]?, l[i+2]?, l[i+3]? with
    | some c0, some c1, some c2, some c3 =>
      if ((c0 == '1' && c1 == '9') || (c0 == '2' && c1 == '0')) && c2.isDigit && c3.isDigit
          && (if i = 0 then true else !wordAt l (i - 1)) && !wordAt l (i + 4) then
        some (digitVal c0 * 1000 + digitVal c1 * 100 + digitVal c2 * 10 + digitVal c3)
      else none
    | _, _, _, _ => none

/-- `ExperienceScorer._parse_date` (`experience_scorer.py:135`). -/
def parse_date (now : PyDate) (date_str : Option String) : Option PyDate :=
  match date_str with
  | none => none
  | some ds =>
    if ds = "" then none
    else
      let stripped := pyStrip ds
      let low := (pyLower stripped).data
      if low == ("present".data) || low == ("current".data) || low == ("now".data) then
        some now
      else
        match fmtYmd low with
        | some d => some d
        | none =>
        match fmtYm low with
        | some d => some d
        | none =>
        match fmtY low with
        | some d => some d
        | none =>
        match fmtMSepY '/' low with
        | some d => some d
        | none =>
        match fmtMSepY '-' low with
        | some d => some d
        | none =>
        match fmtNameY fullMonthNames low with
        | some d => some d
        | none =>
        match fmtNameY abbrMonthNames low with
        | some d => some d
        | none =>
        match findYear stripped.data with
        | some y => mkDate y 1 1
        | none => none

/-- The per-entry dict built at `matcher.py:157`. -/
structure EntryDict where
  start_date : Option String
  end_date : Option String
  is_current : Bool
deriving DecidableEq, Repr

/-- `ExperienceScorer._calculate_entry_duration` (`experience_scorer.py:102`),
in months. -/
def calculate_entry_duration (now : PyDate) (entry : EntryDict) : ℤ :=
  match parse_date now entry.start_date with
  | none => 30
  | some s =>
    match parse_date now entry.end_date with
    | some e => max 0 (((e.year : ℤ) - s.year) * 12 + ((e.month : ℤ) - s.month))
    | none =>
      if entry.is_current then
        max 0 (((now.year : ℤ) - s.year) * 12 + ((now.month : ℤ) - s.month))
      else 24

/-- `ExperienceScorer.estimate_years_from_entries` (`experience_scorer.py:77`). -/
def estimate_years_from_entries (now : PyDate) (entries : List EntryDict) : ℚ :=
  if entries = [] then 0
  else ((entries.map (calculate_entry_duration now)).sum : ℚ) / 12

/-- `ExperienceScorer.score` (`experience_scorer.py:33`). -/
def experience_scorer_score (now : PyDate) (resume_years : Option ℚ)
    (job_min_years : ℤ) (experience_entries : Option (List EntryDict)) : ℚ :=
  if job_min_years ≤ 0 then 1
  else
    let years? : Option ℚ :=
      match resume_years with
      | some y => some y
      | none =>
        match experience_entries with
        | some entries =>
          if entries = [] then none else some (estimate_years_from_entries now entries)
        | none => none
    match years? with
    | none => 0.5
    | some years =>
      if (job_min_years : ℚ) ≤ years then 1
      else if years ≤ 0 then 0
      else years / (job_min_years : ℚ)

/-- `ExperienceScorer.estimate_from_positions` (`experience_scorer.py:223`). -/
def estimate_from_positions (num_positions : ℤ) : ℚ :=
  if num_positions ≤ 0 then 0 else (num_positions : ℚ) * 2.5

/-! ### `ExperienceScorer.estimate_years_from_text`

The four `re.search` patterns, embedded with explicit leftmost scanning;
the captured group is always the maximal digit run at its position
(shortening the greedy `\d+` always puts a digit where a non-digit
literal is required, so no other capture can arise). -/

def digitRun (s : List Char) (i : ℕ) : ℕ :=
  ((s.drop i).takeWhile Char.isDigit).length

def digitsVal (s : List Char) (i n : ℕ) : ℕ :=
  (((s.drop i).take n).map digitVal).foldl (fun acc d => acc * 10 + d) 0

def yearsAlts : List (List Char) :=
  [("years".data), ("year".data), ("yrs".data), ("yr".data)]

/-- Tail of `(\d+)\+?\s*(?:years?|yrs?)(?:\s+of)?\s*(?:experience|exp)`
after the captured digits. -/
def yearsPatTail1 : List RElem :=
  [.chOpt (.lit '+'), .wsStar, .altStrs yearsAlts, .optWsStr ("of".data), .wsStar,
   .altStrs [("experience".data), ("exp".data)]]

def yearsPat1At (s : List Char) (i : ℕ) : Option ℕ :=
  let n := digitRun s i
  if n = 0 then none
  else if mrun yearsPatTail1 s (i + n) then some (digitsVal s i n) else none

/-- `(?:over|more than|>\s*)\s*(\d+)\s*(?:years?|yrs?)`. -/
def yearsPat2At (s : List Char) (i : ℕ) : Option ℕ :=
  let afterPre : List ℕ :=
    (if strAt ("over".data) s i then [i + 4] else []) ++
    (if strAt ("more than".data) s i then [i + 9] else []) ++
    (if testAt (.lit '>') s i then
      (List.range (wsRunLen s (i + 1) + 1)).map (fun k => i + 1 + k)
     else [])
  afterPre.findSome? fun p =>
    ((List.range (wsRunLen s p + 1)).map (fun k => p + k)).findSome? fun q =>
      let n := digitRun s q
      if n = 0 then none
      else if mrun [.wsStar, .altStrs yearsAlts] s (q + n) then
        some (digitsVal s q n)
      else none

/-- `(\d+)\+\s*(?:years?|yrs?)`. -/
def yearsPat3At (s : List Char) (i : ℕ) : Option ℕ :=
  let n := digitRun s i
  if n = 0 then none
  else if mrun [.ch (.lit '+'), .wsStar, .altStrs yearsAlts] s (i + n) then
    some (digitsVal s i n)
  else none

/-- `(?:experience|exp)[:\s]+(\d+)\s*(?:years?|yrs?)`. -/
def yearsPat4At (s : List Char) (i : ℕ) : Option ℕ :=
  let afterPre : List ℕ :=
    (if strAt ("experience".data) s i then [i + 10] else []) ++
    (if strAt ("exp".data) s i then [i + 3] else [])
  afterPre.findSome? fun p =>
    let run := ((s.drop p).takeWhile fun c => c == ':' || isPySpace c).length
    ((List.range run).map (fun k => p + k + 1)).findSome? fun q =>
      let n := digitRun s q
      if n = 0 then none
      else if mrun [.wsStar, .altStrs yearsAlts] s (q + n) then
        some (digitsVal s q n)
      else none

/-- Leftmost match of a positional matcher, as `re.search` does. -/
def reSearchCapture (pat : List Char → ℕ → Option ℕ) (s : List Char) : Option ℕ :=
  (List.range (s.length + 1)).findSome? fun i => pat s i

/-- `ExperienceScorer.estimate_years_from_text` (`experience_scorer.py:182`). -/
def estimate_years_from_text (text : String) : Option ℚ :=
  if text = "" then none
  else
    let tl := (pyLower text).data
    match reSearchCapture yearsPat1At tl with
    | some v => some (v : ℚ)
    | none =>
    match reSearchCapture yearsPat2At tl with
    | some v => some (v : ℚ)
    | none =>
    match reSearchCapture yearsPat3At tl with
    | some v => some (v : ℚ)
    | none =>
    match reSearchCapture yearsPat4At tl with
    | some v => some (v : ℚ)
    | none => none

/-- C5: the experience score is 1 whenever the job requires no minimum;
with a known years value it is 1 at or above the requirement, 0 at or
below zero, and exactly the ratio in between; and it is the neutral 0.5
when the years are entirely unknown. -/
theorem claim_C5 :
    ∀ (now : PyDate) (resume_years : Option ℚ) (job_min_years : ℤ)
      (entries : Option (List EntryDict)),
      (job_min_years ≤ 0 →
        experience_scorer_score now resume_years job_min_years entries = 1) ∧
      (0 < job_min_years →
        (∀ y : ℚ, resume_years = some y →
          ((job_min_years : ℚ) ≤ y →
            experience_scorer_score now resume_years job_min_years entries = 1) ∧
          (y ≤ 0 →
            experience_scorer_score now resume_years job_min_years entries = 0) ∧
          (0 < y → y < (job_min_years : ℚ) →
            experience_scorer_score now resume_years job_min_years entries
              = y / (job_min_years : ℚ))) ∧
        (resume_years = none → (entries = none ∨ entries = some []) →
          experience_scorer_score now resume_years job_min_years entries = 1 / 2)) := by
  intro now resume_years job_min_years entries
  constructor
  · intro h
    unfold experience_scorer_score
    rw [if_pos h]
  · intro hjm
    constructor
    · intro y hy
      subst hy
      unfold experience_scorer_score
      rw [if_neg (by omega)]
      refine ⟨fun h1 => ?_, fun h2 => ?_, fun h3 h4 => ?_⟩
      · simp only [if_pos h1]
      · have : ¬((job_min_years : ℚ) ≤ y) := by
          intro hc
          have : (0 : ℚ) < (job_min_years : ℚ) := by exact_mod_cast hjm
          linarith
        simp only [if_neg this, if_pos h2]
      · have hn1 : ¬((job_min_years : ℚ) ≤ y) := by linarith
        have hn2 : ¬(y ≤ 0) := by linarith
        simp only [if_neg hn1, if_neg hn2]
    · intro hy hent
      subst hy
      unfold experience_scorer_score
      rw [if_neg (by omega)]
      rcases hent with h | h <;> subst h <;> norm_num

/-- Witness for C5 at concrete inputs. -/
theorem claim_C5_witness :
    experience_scorer_score ⟨2024, 1, 1⟩ (some 2) 5 none = 2 / 5 ∧
    experience_scorer_score ⟨2024, 1, 1⟩ (some 7) 5 none = 1 ∧
    experience_scorer_score ⟨2024, 1, 1⟩ (some (-1)) 5 none = 0 ∧
    experience_scorer_score ⟨2024, 1, 1⟩ none 5 none = 1 / 2 ∧
    experience_scorer_score ⟨2024, 1, 1⟩ (some 3) 0 (some []) = 1 := by
  refine ⟨?_, ?_, ?_, ?_, ?_⟩
  · have h := ((claim_C5 ⟨2024, 1, 1⟩ (some 2) 5 none).2 (by norm_num)).1 2 rfl
    have h2 := h.2.2 (by norm_num) (by norm_num)
    rw [h2]
    norm_num
  · exact (((claim_C5 ⟨2024, 1, 1⟩ (some 7) 5 none).2 (by norm_num)).1 7 rfl).1 (by norm_num)
  · exact ((((claim_C5 ⟨2024, 1, 1⟩ (some (-1)) 5 none).2 (by norm_num)).1 (-1) rfl).2.1
      (by norm_num))
  · exact ((claim_C5 ⟨2024, 1, 1⟩ none 5 none).2 (by norm_num)).2 rfl (Or.inl rfl)
  · exact (claim_C5 ⟨2024, 1, 1⟩ (some 3) 0 (some [])).1 (by norm_num)

/-! ## `src/job_matcher/scoring/skill_scorer.py`

Python `set`s of normalized skills are embedded as `Finset String`;
`sorted(...)` is embedded as a stable insertion sort by the string
order (any two stable ascending sorts agree, and the sorted lists here
contain at most one entry per normalized skill). -/

/-- `get_canonical_skill`'s `display_names` table (`skill_synonyms.py:195`). -/
def display_names : List (String × String) := [
  ("javascript", "JavaScript"), ("typescript", "TypeScript"), ("python", "Python"),
  ("java", "Java"), ("c#", "C#"), ("c++", "C++"), ("go", "Go"), ("rust", "Rust"),
  ("ruby", "Ruby"), ("php", "PHP"), ("swift", "Swift"), ("kotlin", "Kotlin"),
  ("react", "React"), ("angular", "Angular"), ("vue", "Vue.js"), ("node.js", "Node.js"),
  ("django", "Django"), ("flask", "Flask"), ("fastapi", "FastAPI"), ("spring", "Spring"),
  ("postgresql", "PostgreSQL"), ("mysql", "MySQL"), ("mongodb", "MongoDB"),
  ("redis", "Redis"), ("elasticsearch", "Elasticsearch"), ("aws", "AWS"),
  ("azure", "Azure"), ("gcp", "GCP"), ("docker", "Docker"), ("kubernetes", "Kubernetes"),
  ("terraform", "Terraform"), ("ansible", "Ansible"), ("jenkins", "Jenkins"),
  ("linux", "Linux"), ("git", "Git"), ("machine learning", "Machine Learning"),
  ("deep learning", "Deep Learning"), ("tensorflow", "TensorFlow"),
  ("pytorch", "PyTorch"), ("scikit-learn", "scikit-learn"), ("pandas", "Pandas"),
  ("numpy", "NumPy"), ("rest", "REST API"), ("graphql", "GraphQL"), ("sql", "SQL"),
  ("agile", "Agile"), ("ci/cd", "CI/CD"), ("microservices", "Microservices")]

/-- `get_canonical_skill` (`skill_synonyms.py:175`). -/
def get_canonical_skill (skill : String) : String :=
  match display_names.lookup (normalize_skill skill) with
  | some d => d
  | none => skill

/-- `SkillGap` (`match_result.py:14`). -/
structure SkillGap where
  skill : String
  importance : String
  category : String
  learning_path : Option String
  estimated_time : Option String
deriving DecidableEq, Repr

/-- `SkillScorer._categorize_skill` (`skill_scorer.py:190`). -/
def categorize_skill (skill : String) : String :=
  let programming : List String := ["python", "java", "javascript", "typescript", "c++",
    "c#", "go", "rust", "ruby", "php", "swift", "kotlin", "scala"]
  let frontend : List String := ["react", "angular", "vue", "svelte", "html", "css",
    "tailwind", "bootstrap", "jquery"]
  let backend : List String := ["django", "flask", "fastapi", "spring", "node.js",
    "express", "rails", "laravel", "asp.net"]
  let database : List String := ["postgresql", "mysql", "mongodb", "redis",
    "elasticsearch", "dynamodb", "cassandra", "sql", "oracle"]
  let cloud : List String := ["aws", "azure", "gcp", "heroku", "digitalocean"]
  let devops : List String := ["docker", "kubernetes", "terraform", "ansible", "jenkins",
    "ci/cd", "linux", "nginx"]
  let dataml : List String := ["machine learning", "deep learning", "tensorflow",
    "pytorch", "pandas", "numpy", "spark", "hadoop"]
  let normalized := normalize_skill skill
  if programming.contains normalized then "programming"
  else if frontend.contains normalized then "frontend"
  else if backend.contains normalized then "backend"
  else if database.contains normalized then "database"
  else if cloud.contains normalized then "cloud"
  else if devops.contains normalized then "devops"
  else if dataml.contains normalized then "data_science"
  else "technical"

/-- Stable ascending insertion of a string into an already sorted list. -/
def insertStr (x : String) : List String → List String
  | [] => [x]
  | y :: ys => if x ≤ y then x :: y :: ys else y :: insertStr x ys

/-- Python `sorted` on strings: stable ascending sort. -/
def pySorted : List String → List String
  | [] => []
  | x :: xs => insertStr x (pySorted xs)

/-- `SkillScorer._get_display_skills` (`skill_scorer.py:145`). -/
def get_display_skills (normalized_skills : Finset String) :
    List String → Finset String → List String
  | [], _ => []
  | skill :: rest, seen =>
    let norm := normalize_skill skill
    if norm ∈ normalized_skills ∧ norm ∉ seen then
      get_canonical_skill skill :: get_display_skills normalized_skills rest (insert norm seen)
    else
      get_display_skills normalized_skills rest seen

/-- `SkillScorer._build_skill_gaps` (`skill_scorer.py:166`). -/
def build_skill_gaps (missing_required missing_preferred : List String) : List SkillGap :=
  (missing_required.map fun skill =>
    { skill := skill, importance := "required", category := categorize_skill skill,
      learning_path := none, estimated_time := none }) ++
  (missing_preferred.map fun skill =>
    { skill := skill, importance := "preferred", category := categorize_skill skill,
      learning_path := none, estimated_time := none })

/-- `SkillMatchResult` (`skill_scorer.py:22`). -/
structure SkillMatchResult where
  score : ℚ
  matched_skills : List String
  missing_required : List String
  missing_preferred : List String
  gaps : List SkillGap
deriving DecidableEq, Repr

/-- The normalized, deduplicated, non-empty skill set built at
`skill_scorer.py:92`. -/
def normSet (skills : List String) : Finset String :=
  ((skills.filter fun s => s ≠ "").map normalize_skill).toFinset

/-- `SkillScorer.score` (`skill_scorer.py:69`), parameterized by the
constructor weights (defaults 2.0 / 1.0). -/
def skill_scorer_score (required_weight preferred_weight : ℚ)
    (resume_skills required_skills preferred_skills : List String) : SkillMatchResult :=
  let resume_normalized := normSet resume_skills
  let required_normalized := normSet required_skills
  let preferred_normalized := normSet preferred_skills
  let matched_required_norm := resume_normalized ∩ required_normalized
  let matched_preferred_norm := resume_normalized ∩ preferred_normalized
  let missing_required_norm := required_normalized \ matched_required_norm
  let missing_preferred_norm := preferred_normalized \ matched_preferred_norm
  let total_possible := (required_normalized.card : ℚ) * required_weight +
    (preferred_normalized.card : ℚ) * preferred_weight
  let score : ℚ :=
    if total_possible = 0 then 0.5
    else ((matched_required_norm.card : ℚ) * required_weight +
      (matched_preferred_norm.card : ℚ) * preferred_weight) / total_possible
  let matched_skills := get_display_skills (matched_required_norm ∪ matched_preferred_norm)
    (required_skills ++ preferred_skills) ∅
  let missing_required := get_display_skills missing_required_norm required_skills ∅
  let missing_preferred := get_display_skills missing_preferred_norm preferred_skills ∅
  { score := min score 1,
    matched_skills := pySorted matched_skills,
    missing_required := pySorted missing_required,
    missing_preferred := pySorted missing_preferred,
    gaps := build_skill_gaps missing_required missing_preferred }

theorem normSet_subset {A B : List String} (h : ∀ s ∈ A, s ∈ B) :
    normSet A ⊆ normSet B := by
  intro x hx
  simp only [normSet, List.mem_toFinset, List.mem_map, List.mem_filter] at hx ⊢
  rcases hx with ⟨a, ⟨haA, hane⟩, hnorm⟩
  exact ⟨a, ⟨h a haA, hane⟩, hnorm⟩

/-- C3: with the default weights the skill score is the weighted matched
fraction over the normalized deduplicated non-empty sets, clamped at 1,
and exactly 0.5 when the job lists no skills at all. -/
theorem claim_C3 :
    ∀ resume_skills required_skills preferred_skills : List String,
      ((normSet required_skills).card = 0 ∧ (normSet preferred_skills).card = 0 →
        (skill_scorer_score 2 1 resume_skills required_skills preferred_skills).score
          = 1 / 2) ∧
      (¬((normSet required_skills).card = 0 ∧ (normSet preferred_skills).card = 0) →
        (skill_scorer_score 2 1 resume_skills required_skills preferred_skills).score =
          min ((2 * ((normSet resume_skills ∩ normSet required_skills).card : ℚ) +
              ((normSet resume_skills ∩ normSet preferred_skills).card : ℚ)) /
            (2 * ((normSet required_skills).card : ℚ) +
              ((normSet preferred_skills).card : ℚ))) 1) := by
  intro resume_skills required_skills preferred_skills
  unfold skill_scorer_score
  dsimp only
  constructor
  · intro ⟨hq, hp⟩
    rw [hq, hp]
    norm_num
  · intro hne
    have hQP : 0 < (normSet required_skills).card ∨ 0 < (normSet preferred_skills).card := by
      rcases Nat.eq_zero_or_pos (normSet required_skills).card with hq | hq
      · rcases Nat.eq_zero_or_pos (normSet preferred_skills).card with hp | hp
        · exact absurd ⟨hq, hp⟩ hne
        · exact Or.inr hp
      · exact Or.inl hq
    have htot : (0 : ℚ) < ((normSet required_skills).card : ℚ) * 2 +
        ((normSet preferred_skills).card : ℚ) * 1 := by
      have h1 : (0 : ℚ) ≤ ((normSet required_skills).card : ℚ) := Nat.cast_nonneg _
      have h2 : (0 : ℚ) ≤ ((normSet preferred_skills).card : ℚ) := Nat.cast_nonneg _
      rcases hQP with h | h
      · have := Nat.cast_pos (α := ℚ).mpr h
        linarith
      · have := Nat.cast_pos (α := ℚ).mpr h
        linarith
    rw [if_neg (ne_of_gt htot)]
    congr 1
    rw [div_eq_div_iff (by linarith) (by linarith)]
    ring

/-- Witness for C3. -/
theorem claim_C3_witness :
    (skill_scorer_score 2 1 ["Python"] ["python"] []).score = 1 ∧
    (skill_scorer_score 2 1 ["Python"] [] []).score = 1 / 2 := by
  constructor
  · have h := (claim_C3 ["Python"] ["python"] []).2 (by decide)
    have hc1 : (normSet ["Python"] ∩ normSet ["python"]).card = 1 := by decide
    have hc2 : (normSet ["Python"] ∩ normSet ([] : List String)).card = 0 := by decide
    have hc3 : (normSet ["python"]).card = 1 := by decide
    have hc4 : (normSet ([] : List String)).card = 0 := by decide
    rw [h, hc1, hc2, hc3, hc4]
    norm_num
  · exact (claim_C3 ["Python"] [] []).1 (by decide)

/-- C4: with fixed job skills, the default-weight skill score is
monotone in the résumé skill list under containment. -/
theorem claim_C4 :
    ∀ (required_skills preferred_skills A B : List String),
      (∀ s ∈ A, s ∈ B) →
      (skill_scorer_score 2 1 A required_skills preferred_skills).score ≤
        (skill_scorer_score 2 1 B required_skills preferred_skills).score := by
  intro required_skills preferred_skills A B hAB
  have hsub := normSet_subset hAB
  unfold skill_scorer_score
  dsimp only
  by_cases htot0 : ((normSet required_skills).card : ℚ) * 2 +
      ((normSet preferred_skills).card : ℚ) * 1 = 0
  · rw [if_pos htot0, if_pos htot0]
  · rw [if_neg htot0, if_neg htot0]
    have htot : (0 : ℚ) < ((normSet required_skills).card : ℚ) * 2 +
        ((normSet preferred_skills).card : ℚ) * 1 := by
      rcases lt_or_eq_of_le (by positivity : (0 : ℚ) ≤ ((normSet required_skills).card : ℚ) * 2 +
        ((normSet preferred_skills).card : ℚ) * 1) with h | h
      · exact h
      · exact absurd h.symm htot0
    have h1 : (normSet A ∩ normSet required_skills).card ≤
        (normSet B ∩ normSet required_skills).card :=
      Finset.card_le_card (Finset.inter_subset_inter hsub (Finset.Subset.refl _))
    have h2 : (normSet A ∩ normSet preferred_skills).card ≤
        (normSet B ∩ normSet preferred_skills).card :=
      Finset.card_le_card (Finset.inter_subset_inter hsub (Finset.Subset.refl _))
    have hnum : ((normSet A ∩ normSet required_skills).card : ℚ) * 2 +
        ((normSet A ∩ normSet preferred_skills).card : ℚ) * 1 ≤
        ((normSet B ∩ normSet required_skills).card : ℚ) * 2 +
        ((normSet B ∩ normSet preferred_skills).card : ℚ) * 1 := by
      have hc1 : ((normSet A ∩ normSet required_skills).card : ℚ) ≤
          ((normSet B ∩ normSet required_skills).card : ℚ) := Nat.cast_le.mpr h1
      have hc2 : ((normSet A ∩ normSet preferred_skills).card : ℚ) ≤
          ((normSet B ∩ normSet preferred_skills).card : ℚ) := Nat.cast_le.mpr h2
      linarith
    exact min_le_min ((div_le_div_iff_of_pos_right htot).mpr hnum) le_rfl

/-- Witness for C4. -/
theorem claim_C4_witness :
    (skill_scorer_score 2 1 ["Python"] ["python", "aws"] ["docker"]).score ≤
      (skill_scorer_score 2 1 ["Python", "AWS"] ["python", "aws"] ["docker"]).score :=
  claim_C4 ["python", "aws"] ["docker"] ["Python"] ["Python", "AWS"] (by decide)

/-! ## Data models (`src/resume_parser/models/resume.py`,
`src/job_matcher/models/job.py`, `src/job_matcher/models/match_result.py`)

Dataclass defaults are carried over as Lean field defaults.  Python
`float` fields hold exact decimals here and are embedded as `ℚ`. -/

structure ContactInfo where
  email : Option String := none
  phone : Option String := none
  location : Option String := none
  linkedin : Option String := none
  name : Option String := none
deriving DecidableEq, Repr

structure WorkExperience where
  company : Option String := none
  role : Option String := none
  start_date : Option String := none
  end_date : Option String := none
  description : Option String := none
  location : Option String := none
  is_current : Bool := false
deriving DecidableEq, Repr

structure Education where
  institution : Option String := none
  degree : Option String := none
  field_of_study : Option String := none
  graduation_date : Option String := none
  gpa : Option String := none
  honors : Option String := none
deriving DecidableEq, Repr

structure ParsedSection where
  name : String
  content : String
  start_index : ℕ := 0
  end_index : ℕ := 0
deriving DecidableEq, Repr

/-- `Resume` (`resume.py:113`); the `sections` dict is an association
list with unique keys. -/
structure Resume where
  raw_text : String := ""
  contact : ContactInfo := {}
  skills : List String := []
  experience : List WorkExperience := []
  education : List Education := []
  sections : List (String × ParsedSection) := []
  file_path : Option String := none
  file_type : Option String := none
  parse_errors : List String := []
deriving DecidableEq, Repr

/-- `Job` (`job.py:30`); the random uuid default for `job_id` is I/O and
out of scope, so `job_id` is an explicit field. -/
structure Job where
  title : String
  company : String
  description : String := ""
  job_id : String := ""
  clearance_level : ClearanceLevel := .NONE
  required_skills : List String := []
  preferred_skills : List String := []
  min_experience_years : ℤ := 0
  location : Option String := none
  salary_min : Option ℤ := none
  salary_max : Option ℤ := none
  is_remote : Bool := false
  department : Option String := none
  employment_type : String := "Full-time"
deriving DecidableEq, Repr

/-- Python `round(x, n)` on the exact rational value: round-half-even at
`n` decimal digits. -/
def pyRound (x : ℚ) (ndigits : ℕ) : ℚ :=
  let m : ℚ := (10 : ℚ) ^ ndigits
  let y := x * m
  let f : ℤ := ⌊y⌋
  let r : ℚ := y - f
  let n : ℤ :=
    if r < 1 / 2 then f
    else if 1 / 2 < r then f + 1
    else if f % 2 = 0 then f else f + 1
  (n : ℚ) / m

/-- `MatchResult` (`match_result.py:98`) with its dataclass defaults. -/
structure MatchResult where
  score : ℚ := 0
  semantic_score : ℚ := 0
  skill_score : ℚ := 0
  experience_score : ℚ := 0
  matched_skills : List String := []
  missing_required_skills : List String := []
  missing_preferred_skills : List String := []
  skill_gaps : List SkillGap := []
  upskilling_recommendations : List String := []
  clearance_met : Bool := true
  disqualified : Bool := false
  disqualification_reason : Option String := none
  job_id : Option String := none
  job_title : Option String := none
  job_company : Option String := none
  explanation : String := ""
deriving DecidableEq, Repr

/-- `MatchResult.get_tier` (`match_result.py:138`). -/
def MatchResult.get_tier (r : MatchResult) : String :=
  if r.disqualified then "Disqualified"
  else if 85 ≤ r.score then "Excellent"
  else if 70 ≤ r.score then "Strong"
  else if 55 ≤ r.score then "Good"
  else if 40 ≤ r.score then "Fair"
  else "Weak"

/-- `MatchResult.generate_explanation` (`match_result.py:188`); Python
string-formats `None` as the text `None`. -/
def MatchResult.generate_explanation (r : MatchResult) : String :=
  if r.disqualified then
    "Not qualified: " ++
      (match r.disqualification_reason with
       | some s => s
       | none => "None")
  else
    let tier := r.get_tier
    let lines1 : List String :=
      [if tier = "Excellent" then "Outstanding match with strong alignment across all criteria."
       else if tier = "Strong" then "Strong candidate with good technical and experience fit."
       else if tier = "Good" then "Solid match with some areas for growth."
       else if tier = "Fair" then "Moderate fit - may require additional training."
       else "Limited match - significant gaps identified."]
    let lines2 := lines1 ++
      (if r.matched_skills ≠ [] then
        ["Matches " ++ toString r.matched_skills.length ++ " key skills: " ++
          String.intercalate ", " (r.matched_skills.take 5) ++
          (if 5 < r.matched_skills.length then "..." else "") ++ "."]
       else [])
    let lines3 := lines2 ++
      (if r.missing_required_skills ≠ [] then
        ["Missing " ++ toString r.missing_required_skills.length ++ " required skills: " ++
          String.intercalate ", " (r.missing_required_skills.take 3) ++
          (if 3 < r.missing_required_skills.length then "..." else "") ++ "."]
       else [])
    let lines4 := lines3 ++
      (if r.clearance_met then ["Meets security clearance requirements."] else [])
    String.intercalate " " lines4

/-- `MatchResult.__eq__` (`match_result.py:308`) between two
`MatchResult`s: equality is score-only with absolute tolerance 0.01. -/
def MatchResult.pyEq (r1 r2 : MatchResult) : Bool :=
  decide (|r1.score - r2.score| < 1 / 100)

/-- The entries of `UPSKILLING_RECOMMENDATIONS` (`match_result.py:44`). -/
structure UpskillRec where
  learning_path : String
  resources : List String
  estimated_time : String
deriving DecidableEq, Repr

def UPSKILLING_RECOMMENDATIONS : List (String × UpskillRec) := [
  ("kubernetes", ⟨"Container orchestration for cloud-native applications",
    ["Kubernetes.io docs", "CKAD certification", "KodeKloud"], "2-3 months"⟩),
  ("docker", ⟨"Containerization fundamentals",
    ["Docker official docs", "Docker Captain tutorials"], "2-4 weeks"⟩),
  ("aws", ⟨"Cloud computing with Amazon Web Services",
    ["AWS Free Tier", "AWS Certified Cloud Practitioner"], "1-2 months"⟩),
  ("terraform", ⟨"Infrastructure as Code",
    ["Terraform tutorials", "HashiCorp certification"], "3-4 weeks"⟩),
  ("python", ⟨"General-purpose programming language",
    ["Python.org tutorial", "Real Python", "Codecademy"], "2-3 months"⟩),
  ("react", ⟨"Modern frontend development with React",
    ["React.dev", "Scrimba", "Frontend Masters"], "1-2 months"⟩),
  ("typescript", ⟨"Type-safe JavaScript development",
    ["TypeScript Handbook", "Execute Program"], "2-4 weeks"⟩),
  ("graphql", ⟨"Modern API query language",
    ["GraphQL.org", "Apollo tutorials"], "2-3 weeks"⟩),
  ("machine learning", ⟨"AI and statistical modeling",
    ["Coursera ML course", "fast.ai", "Kaggle"], "3-6 months"⟩),
  ("postgresql", ⟨"Advanced relational database",
    ["PostgreSQL docs", "pgexercises.com"], "3-4 weeks"⟩)]

/-! ## `src/job_matcher/scoring/semantic_scorer.py` and
`src/job_matcher/matcher.py`

The embedding model is an external opaque service (spec §6); it enters
the embedding as an explicit `EmbeddingService` of pure functions, and
`datetime.now()` as the `now` parameter. -/

/-- The external embedding service interface: `encode` and
`cosine_similarity`. -/
structure EmbeddingService where
  encode : String → List ℚ
  cosine_similarity : List ℚ → List ℚ → ℚ

/-- `SemanticScorer.score` (`semantic_scorer.py:45`): 0 on empty input,
otherwise the (possibly precomputed) embeddings' cosine similarity
clamped to `[0, 1]`. -/
def semantic_scorer_score (svc : EmbeddingService) (resume_text job_text : String)
    (resume_embedding job_embedding : Option (List ℚ)) : ℚ :=
  if resume_text = "" ∨ job_text = "" then 0
  else
    let re :=
      match resume_embedding with
      | some e => e
      | none => svc.encode resume_text
    let je :=
      match job_embedding with
      | some e => e
      | none => svc.encode job_text
    max 0 (min 1 (svc.cosine_similarity re je))

/-- The matcher's weights (`JobMatcher.__init__`); the sum-to-1
construction check is fatal and out of the claims' scope. -/
structure JobMatcherW where
  semantic_weight : ℚ
  skill_weight : ℚ
  experience_weight : ℚ
deriving DecidableEq, Repr

/-- `JobMatcher._estimate_experience_years` (`matcher.py:275`): the
explicit text pattern first, then 2.5 years per listed position. -/
def estimate_experience_years (resume : Resume) : Option ℚ :=
  match (if resume.raw_text = "" then none else estimate_years_from_text resume.raw_text) with
  | some y => some y
  | none =>
    if resume.experience ≠ [] then
      some (estimate_from_positions (resume.experience.length : ℤ))
    else none

/-- `JobMatcher._get_upskilling_recommendations` (`matcher.py:299`). -/
def get_upskilling_recommendations (missing_skills : List String)
    (max_recommendations : ℕ) : List String :=
  (missing_skills.take max_recommendations).map fun skill =>
    let canonical := get_canonical_skill skill
    match UPSKILLING_RECOMMENDATIONS.lookup (pyLower skill) with
    | some r => "Learn " ++ canonical ++ ": " ++ r.learning_path
    | none => "Develop " ++ canonical ++ " skills"

/-- `JobMatcher.match` (`matcher.py:91`). -/
def matchResume (svc : EmbeddingService) (now : PyDate) (m : JobMatcherW)
    (resume : Resume) (job : Job)
    (resume_embedding job_embedding : Option (List ℚ)) : MatchResult :=
  let resume_text := resume.raw_text
  let resume_clearance := detect_clearance_from_text resume_text
  if meets_clearance_requirement resume_clearance job.clearance_level = false then
    { score := 0,
      disqualified := true,
      disqualification_reason := some ("Clearance requirement not met. Job requires " ++
        clearance_to_string job.clearance_level ++ ", resume shows " ++
        clearance_to_string resume_clearance ++ "."),
      clearance_met := false,
      job_id := some job.job_id,
      job_title := some job.title,
      job_company := some job.company }
  else
    let semantic_score := semantic_scorer_score svc resume_text job.description
      resume_embedding job_embedding
    let skill_result := skill_scorer_score 2 1 resume.skills job.required_skills
      job.preferred_skills
    let resume_years := estimate_experience_years resume
    let experience_score := experience_scorer_score now resume_years job.min_experience_years
      (if resume.experience ≠ [] then
        some (resume.experience.map fun exp =>
          { start_date := exp.start_date, end_date := exp.end_date,
            is_current := exp.is_current })
       else none)
    let ffx_score := (m.semantic_weight * semantic_score +
      m.skill_weight * skill_result.score +
      m.experience_weight * experience_score) * 100
    let upskilling := get_upskilling_recommendations
      (skill_result.missing_required ++ skill_result.missing_preferred) 5
    let result : MatchResult :=
      { score := pyRound ffx_score 1,
        semantic_score := pyRound semantic_score 4,
        skill_score := pyRound skill_result.score 4,
        experience_score := pyRound experience_score 4,
        matched_skills := skill_result.matched_skills,
        missing_required_skills := skill_result.missing_required,
        missing_preferred_skills := skill_result.missing_preferred,
        skill_gaps := skill_result.gaps,
        upskilling_recommendations := upskilling,
        clearance_met := true,
        job_id := some job.job_id,
        job_title := some job.title,
        job_company := some job.company }
    { result with explanation := result.generate_explanation }

/-- Stable descending insertion by score, as Python's
`results.sort(key=..., reverse=True)` produces. -/
def insertResultDesc (x : MatchResult) : List MatchResult → List MatchResult
  | [] => [x]
  | y :: ys => if y.score ≤ x.score then x :: y :: ys else y :: insertResultDesc x ys

def sortByScoreDesc : List MatchResult → List MatchResult
  | [] => []
  | x :: xs => insertResultDesc x (sortByScoreDesc xs)

/-- `JobMatcher.match_batch` (`matcher.py:202`). -/
def matchBatch (svc : EmbeddingService) (now : PyDate) (m : JobMatcherW)
    (resume : Resume) (jobs : List Job) (resume_embedding : Option (List ℚ))
    (sort_by_score : Bool) : List MatchResult :=
  if jobs = [] then []
  else
    let emb :=
      match resume_embedding with
      | some e => some e
      | none => if resume.raw_text ≠ "" then some (svc.encode resume.raw_text) else none
    let results := jobs.map fun job => matchResume svc now m resume job emb none
    if sort_by_score then sortByScoreDesc results else results

/-- C2: a disqualified result carries score 0 and a non-empty reason; a
qualified result has no disqualification reason. -/
theorem claim_C2 :
    ∀ (svc : EmbeddingService) (now : PyDate) (m : JobMatcherW) (resume : Resume)
      (job : Job) (re je : Option (List ℚ)),
      ((matchResume svc now m resume job re je).disqualified = true →
        (matchResume svc now m resume job re je).score = 0 ∧
        ∃ s, (matchResume svc now m resume job re je).disqualification_reason = some s ∧
          s ≠ "") ∧
      ((matchResume svc now m resume job re je).disqualified = false →
        (matchResume svc now m resume job re je).disqualification_reason = none) := by
  intro svc now m resume job re je
  unfold matchResume
  by_cases hq : meets_clearance_requirement (detect_clearance_from_text resume.raw_text)
      job.clearance_level = false
  · rw [if_pos hq]
    constructor
    · intro _
      refine ⟨rfl, _, rfl, ?_⟩
      intro hcontra
      have hlen := congrArg String.length hcontra
      simp only [String.length_append] at hlen
      have hpos : 0 < ("Clearance requirement not met. Job requires ").length := by decide
      have hz : ("" : String).length = 0 := rfl
      omega
    · intro hdq
      simp at hdq
  · rw [if_neg hq]
    constructor
    · intro hdq
      simp at hdq
    · intro _
      rfl

def svc0 : EmbeddingService := ⟨fun _ => [], fun _ _ => 0⟩

def w0 : JobMatcherW := ⟨2 / 5, 2 / 5, 1 / 5⟩

def now0 : PyDate := ⟨2024, 1, 1⟩

def jobSecret : Job := { title := "Analyst", company := "Acme", clearance_level := .SECRET }

def jobOpen : Job := { title := "Dev", company := "Acme" }

/-- Witness for C2: an empty resume against a SECRET job is disqualified
with score 0; against an uncleared job it carries no reason. -/
theorem claim_C2_witness :
    (matchResume svc0 now0 w0 {} jobSecret none none).score = 0 ∧
    (matchResume svc0 now0 w0 {} jobOpen none none).disqualification_reason = none := by
  constructor
  · exact ((claim_C2 svc0 now0 w0 {} jobSecret none none).1 (by decide)).1
  · exact (claim_C2 svc0 now0 w0 {} jobOpen none none).2 (by decide)

/-- C10: `MatchResult` equality compares only the composite score with
absolute tolerance 0.01, whatever the other fields hold, and is not
transitive. -/
theorem claim_C10 :
    (∀ r1 r2 : MatchResult, MatchResult.pyEq r1 r2 = true ↔ |r1.score - r2.score| < 1 / 100) ∧
    (∃ r1 r2 r3 : MatchResult, MatchResult.pyEq r1 r2 = true ∧
      MatchResult.pyEq r2 r3 = true ∧ MatchResult.pyEq r1 r3 = false) := by
  constructor
  · intro r1 r2
    exact decide_eq_true_iff
  · refine ⟨{ score := 0 }, { score := 1 / 200, explanation := "different" },
      { score := 1 / 100, disqualified := true }, ?_, ?_, ?_⟩
    · simp only [MatchResult.pyEq]
      rw [decide_eq_true_iff]
      rw [abs_lt]
      constructor <;> norm_num
    · simp only [MatchResult.pyEq]
      rw [decide_eq_true_iff]
      rw [abs_lt]
      constructor <;> norm_num
    · simp only [MatchResult.pyEq]
      rw [decide_eq_false_iff_not, abs_lt]
      norm_num

theorem semantic_amortized (svc : EmbeddingService) (text jtext : String)
    (je : Option (List ℚ)) :
    semantic_scorer_score svc text jtext (some (svc.encode text)) je =
      semantic_scorer_score svc text jtext none je := by
  unfold semantic_scorer_score
  by_cases hc : text = "" ∨ jtext = ""
  · rw [if_pos hc]
  · rw [if_neg hc]

theorem matchResume_amortized (svc : EmbeddingService) (now : PyDate) (m : JobMatcherW)
    (resume : Resume) (job : Job) :
    matchResume svc now m resume job (some (svc.encode resume.raw_text)) none =
      matchResume svc now m resume job none none := by
  unfold matchResume
  by_cases hq : meets_clearance_requirement (detect_clearance_from_text resume.raw_text)
      job.clearance_level = false
  · rw [if_pos hq, if_pos hq]
  · rw [if_neg hq, if_neg hq]
    dsimp only
    rw [semantic_amortized]

/-- C7: without the explicit score-descending sort, batch matching
returns exactly the per-job match results in input order. -/
theorem claim_C7 :
    ∀ (svc : EmbeddingService) (now : PyDate) (m : JobMatcherW) (resume : Resume)
      (jobs : List Job) (re : Option (List ℚ)),
      matchBatch svc now m resume jobs re false =
        jobs.map fun job => matchResume svc now m resume job re none := by
  intro svc now m resume jobs re
  unfold matchBatch
  by_cases hj : jobs = []
  · rw [if_pos hj, hj]
    rfl
  · rw [if_neg hj]
    dsimp only
    rw [if_neg (by exact Bool.false_ne_true)]
    apply List.map_congr_left
    intro job _
    cases re with
    | some e => rfl
    | none =>
      dsimp only
      by_cases ht : resume.raw_text = ""
      · rw [if_neg (by simp [ht])]
      · rw [if_pos (by simp [ht])]
        exact matchResume_amortized svc now m resume job

/-! ## C8: the order of the three years-estimation methods -/

/-- The resume used to refute C8: no text, one dated position. -/
def resumeC8 : Resume :=
  { raw_text := "",
    experience := [{ start_date := some ("2020-01"), end_date := some ("2021-01") }] }

/-- C8 counterexample: with no years phrase in the text and one
experience entry spanning exactly 12 months, the matcher's years
estimate is 2.5 (position-count method (c)), not the 1.0 that the
per-entry duration sum (method (b)) yields; so (b) is not the second
method tried. -/
theorem claim_C8_counterexample :
    estimate_experience_years resumeC8 = some (5 / 2) ∧
    estimate_years_from_entries now0
      [{ start_date := some ("2020-01"), end_date := some ("2021-01"), is_current := false }]
      = 1 ∧
    (5 / 2 : ℚ) ≠ 1 := by
  refine ⟨?_, ?_, by norm_num⟩
  · unfold estimate_experience_years
    norm_num [resumeC8, estimate_from_positions]
  · have h : ([({ start_date := some ("2020-01"),
                  end_date := some ("2021-01"),
                  is_current := false } : EntryDict)].map
        (calculate_entry_duration now0)).sum = (12 : ℤ) := by decide
    unfold estimate_years_from_entries
    rw [if_neg (by decide), h]
    norm_num

/-- C8 (amended): the matcher tries (a) the explicit text pattern, then
falls straight back to (c) 2.5 years per listed position; the per-entry
duration sum (b) is bypassed, because the scorer ignores entries
whenever a years value is supplied and the matcher supplies one whenever
entries exist. -/
theorem claim_C8 :
    (∀ (resume : Resume) (y : ℚ), resume.raw_text ≠ "" →
      estimate_years_from_text resume.raw_text = some y →
      estimate_experience_years resume = some y) ∧
    (∀ resume : Resume,
      (resume.raw_text = "" ∨ estimate_years_from_text resume.raw_text = none) →
      resume.experience ≠ [] →
      estimate_experience_years resume =
        some (estimate_from_positions (resume.experience.length : ℤ))) ∧
    (∀ (now : PyDate) (y : ℚ) (jm : ℤ) (entries : Option (List EntryDict)),
      experience_scorer_score now (some y) jm entries =
        experience_scorer_score now (some y) jm none) := by
  refine ⟨?_, ?_, ?_⟩
  · intro resume y ht hy
    unfold estimate_experience_years
    rw [if_neg ht, hy]
  · intro resume ht hexp
    unfold estimate_experience_years
    rcases ht with h | h
    · rw [if_pos h]
      dsimp only
      rw [if_pos hexp]
    · by_cases h0 : resume.raw_text = ""
      · rw [if_pos h0]
        dsimp only
        rw [if_pos hexp]
      · rw [if_neg h0, h]
        dsimp only
        rw [if_pos hexp]
  · intro now y jm entries
    unfold experience_scorer_score
    by_cases hjm : jm ≤ 0
    · rw [if_pos hjm]
    · rw [if_neg hjm]

/-- Witness for the amended C8. -/
theorem claim_C8_witness :
    estimate_experience_years resumeC8 =
      some (estimate_from_positions ((resumeC8.experience.length : ℕ) : ℤ)) ∧
    estimate_experience_years { raw_text := "4 years experience in Java" } = some 4 ∧
    experience_scorer_score now0 (some 3) 5
        (some [({ start_date := some ("2020-01"),
                  end_date := some ("2021-01"),
                  is_current := false } : EntryDict)]) =
      experience_scorer_score now0 (some 3) 5 none := by
  refine ⟨?_, ?_, ?_⟩
  · exact (claim_C8.2.1 resumeC8 (Or.inl rfl) (by decide))
  · have h : estimate_years_from_text ("4 years experience in Java") = some 4 := by
      have h1 : reSearchCapture yearsPat1At
          ((pyLower ("4 years experience in Java")).data) = some 4 := by decide
      unfold estimate_years_from_text
      rw [if_neg (by decide)]
      dsimp only
      rw [h1]
      norm_num
    exact claim_C8.1 { raw_text := "4 years experience in Java" } 4 (by decide) h
  · exact claim_C8.2.2 now0 3 5 _

/-! ## `src/resume_parser/parser.py`

The individual extractor bodies are regex-heavy components consumed by
the orchestrator through `try/except`; they enter the embedding as
explicit fallible functions (`Except String` models a raised exception
carrying its message text), exactly at the call granularity of
`ResumeParser._parse_content`.  The embedded orchestrator is a total
function: `parse_text` always returns a `Resume`. -/

/-- The five extractor calls `_parse_content` makes, as oracles. -/
structure Extractors where
  sections : String → Except String (List (String × ParsedSection))
  contact : String → Option String → Except String ContactInfo
  skills : String → Option String → Except String (List String)
  experience : String → Option String → Except String (List WorkExperience)
  education : String → Option String → Except String (List Education)

/-- `resume.sections.get(key, {}).content if key in resume.sections else None`. -/
def sectionContent (sections : List (String × ParsedSection)) (key : String) :
    Option String :=
  match sections.lookup key with
  | some sec => some sec.content
  | none => none

/-- `ResumeParser._parse_content` (`parser.py:139`): each extractor is
wrapped in its own `try/except`; a failure appends a message to
`parse_errors` and leaves the field at its default, and the remaining
extractors still run. -/
def parse_content (ext : Extractors) (resume : Resume) : Resume :=
  let text := resume.raw_text
  let r1 :=
    match ext.sections text with
    | .ok secs => { resume with sections := secs }
    | .error e =>
      { resume with parse_errors := resume.parse_errors ++ ["Section extraction failed: " ++ e] }
  let contact_section := sectionContent r1.sections "contact"
  let skills_section := sectionContent r1.sections "skills"
  let experience_section := sectionContent r1.sections "experience"
  let education_section := sectionContent r1.sections "education"
  let r2 :=
    match ext.contact text contact_section with
    | .ok c => { r1 with contact := c }
    | .error e =>
      { r1 with parse_errors := r1.parse_errors ++ ["Contact extraction failed: " ++ e] }
  let r3 :=
    match ext.skills text skills_section with
    | .ok sk => { r2 with skills := sk }
    | .error e =>
      { r2 with parse_errors := r2.parse_errors ++ ["Skill extraction failed: " ++ e] }
  let r4 :=
    match ext.experience text experience_section with
    | .ok exp => { r3 with experience := exp }
    | .error e =>
      { r3 with parse_errors := r3.parse_errors ++ ["Experience extraction failed: " ++ e] }
  let r5 :=
    match ext.education text education_section with
    | .ok ed => { r4 with education := ed }
    | .error e =>
      { r4 with parse_errors := r4.parse_errors ++ ["Education extraction failed: " ++ e] }
  r5

/-- `ResumeParser.parse_text` (`parser.py:125`). -/
def parse_text (ext : Extractors) (text : String) (source : String) : Resume :=
  parse_content ext { raw_text := text, file_type := some source }

set_option maxHeartbeats 1000000 in
/-- C9: `parse_text` always completes with a best-effort record: every
extractor failure is caught, its message is appended to `parse_errors`
in extractor order, the failing field keeps its default, and the other
extractors still run and populate their fields. -/
theorem claim_C9 :
    ∀ (ext : Extractors) (text source : String),
      (parse_text ext text source).raw_text = text ∧
      (parse_text ext text source).file_type = some source ∧
      (parse_text ext text source).sections =
        (match ext.sections text with
         | .ok secs => secs
         | .error _ => []) ∧
      (parse_text ext text source).contact =
        (match ext.contact text
            (sectionContent (match ext.sections text with
              | .ok secs => secs
              | .error _ => []) "contact") with
         | .ok c => c
         | .error _ => {}) ∧
      (parse_text ext text source).skills =
        (match ext.skills text
            (sectionContent (match ext.sections text with
              | .ok secs => secs
              | .error _ => []) "skills") with
         | .ok sk => sk
         | .error _ => []) ∧
      (parse_text ext text source).experience =
        (match ext.experience text
            (sectionContent (match ext.sections text with
              | .ok secs => secs
              | .error _ => []) "experience") with
         | .ok exp => exp
         | .error _ => []) ∧
      (parse_text ext text source).education =
        (match ext.education text
            (sectionContent (match ext.sections text with
              | .ok secs => secs
              | .error _ => []) "education") with
         | .ok ed => ed
         | .error _ => []) ∧
      (parse_text ext text source).parse_errors =
        (match ext.sections text with
         | .ok _ => []
         | .error e => ["Section extraction failed: " ++ e]) ++
        (match ext.contact text
            (sectionContent (match ext.sections text with
              | .ok secs => secs
              | .error _ => []) "contact") with
         | .ok _ => []
         | .error e => ["Contact extraction failed: " ++ e]) ++
        (match ext.skills text
            (sectionContent (match ext.sections text with
              | .ok secs => secs
              | .error _ => []) "skills") with
         | .ok _ => []
         | .error e => ["Skill extraction failed: " ++ e]) ++
        (match ext.experience text
            (sectionContent (match ext.sections text with
              | .ok secs => secs
              | .error _ => []) "experience") with
         | .ok _ => []
         | .error e => ["Experience extraction failed: " ++ e]) ++
        (match ext.education text
            (sectionContent (match ext.sections text with
              | .ok secs => secs
              | .error _ => []) "education") with
         | .ok _ => []
         | .error e => ["Education extraction failed: " ++ e]) := by
  intro ext text source
  cases hs : ext.sections text with
  | ok secs =>
    rcases hc : ext.contact text (sectionContent secs "contact") with e2 | c <;>
      rcases hk : ext.skills text (sectionContent secs "skills") with e3 | sk <;>
        rcases he : ext.experience text (sectionContent secs "experience") with e4 | ex <;>
          rcases hd : ext.education text (sectionContent secs "education") with e5 | ed <;>
            simp [parse_text, parse_content, hs, hc, hk, he, hd]
  | error e1 =>
    rcases hc : ext.contact text (sectionContent [] "contact") with e2 | c <;>
      rcases hk : ext.skills text (sectionContent [] "skills") with e3 | sk <;>
        rcases he : ext.experience text (sectionContent [] "experience") with e4 | ex <;>
          rcases hd : ext.education text (sectionContent [] "education") with e5 | ed <;>
            simp [parse_text, parse_content, hs, hc, hk, he, hd]

end FFX

